import Mathlib

/-!
# opengl-compute-example: a shallow embedding of `src/main.cpp`

The host program is embedded as pure functions over an explicit host-visible
state: the buffer objects the host created and wrote, the shader-storage
binding table, the window close flag and the chronological list of
GL / GLFW calls the host issued.

Arithmetic is exact: every definition is generic in a field `α` standing for
the C floating-point types, so rounding is not modelled.  The C library
functions `sin`, `cos` and the constant `RAND_MAX` are taken as parameters
(`Libc`); the outside world of one run (random draws, files, the success of
allocations, window events, contents of uninitialised memory) is the record
`World`.
-/

namespace GLCompute

/-! ## Compile-time constants (main.cpp 15-23) -/

/-- The particle count, `#define NUM_PARTICLES 100000`. -/
def NUM_PARTICLES : Nat := 100000

/-- The work-group size, `#define WORK_GROUP_SIZE 1000`. -/
def WORK_GROUP_SIZE : Nat := 1000

/-- The window width, `#define SCREENX 1920`. -/
def SCREENX : Nat := 1920

/-- The window height, `#define SCREENY 1080`. -/
def SCREENY : Nat := 1080

/-- The four `#define`s gathered, so that the program can also be read with
other values of them. -/
structure Defines where
  NUM_PARTICLES : Nat
  WORK_GROUP_SIZE : Nat
  SCREENX : Nat
  SCREENY : Nat
  deriving DecidableEq, Repr

/-- The values main.cpp is compiled with. -/
def defines : Defines :=
  { NUM_PARTICLES := NUM_PARTICLES, WORK_GROUP_SIZE := WORK_GROUP_SIZE,
    SCREENX := SCREENX, SCREENY := SCREENY }

/-- The type `glm::vec2`: two floats. -/
structure vec2 (α : Type) where
  x : α
  y : α
  deriving DecidableEq, Repr

/-- The type `glm::vec4`: four floats. -/
structure vec4 (α : Type) where
  x : α
  y : α
  z : α
  w : α
  deriving DecidableEq, Repr

/-- The floats `glm::value_ptr` points at, for a `vec2`. -/
def vec2.value_ptr {α : Type} (v : vec2 α) : List α := [v.x, v.y]

/-- The floats of a `vec4`, in memory order. -/
def vec4.value_ptr {α : Type} (v : vec4 α) : List α := [v.x, v.y, v.z, v.w]

/-- The floats of an array of `vec4`, in memory order. -/
def floatsOf {α : Type} (a : List (vec4 α)) : List α := a.flatMap vec4.value_ptr

/-- The global `defaultCursor = glm::vec2(0.0f, 0.0f)`. -/
def defaultCursor {α : Type} [Field α] : vec2 α := ⟨0, 0⟩

/-- Bytes of a `GLfloat`. -/
def sizeof_GLfloat : Nat := 4

/-- Bytes of a `glm::vec4`. -/
def sizeof_vec4 : Nat := 4 * sizeof_GLfloat

/-- A `GLchar`, one byte of a shader source. -/
abbrev GLchar := UInt8

/-! ## The C library and the outside world -/

/-- An opened file as a `std::ifstream` shows it. -/
structure File where
  /-- the bytes a `read` from the beginning of the stream delivers -/
  bytes : List GLchar
  /-- the value `tellg()` returns after `seekg(0, end)`: the length for a
  regular file, -1 for a stream that cannot seek -/
  tellgEnd : Int
  deriving DecidableEq, Repr

/-- The largest value of a `long`. -/
def LONG_MAX : Int := 9223372036854775807

/-- The ways `LoadShader` ends without returning. -/
inductive Fault where
  /-- the exception `std::runtime_error` with this message -/
  | runtime_error (what : String)
  /-- the exception `std::bad_alloc`, thrown by `new` -/
  | bad_alloc
  /-- a write outside the array `new` returned: undefined behaviour -/
  | outOfBounds
  deriving DecidableEq, Repr

/-- The parts of the C library main.cpp calls on numbers. -/
structure Libc (α : Type) where
  sin : α → α
  cos : α → α
  RAND_MAX : Nat

/-- Everything one run of the program reads from outside itself. -/
structure World (α : Type) where
  /-- the value the k-th call of `rand()` returns -/
  rand : Nat → Nat
  /-- the bytes of the file at a path, `none` when it cannot be opened -/
  files : String → Option File
  /-- whether `new GLchar[n]` returns an array, rather than throw -/
  newSucceeds : Nat → Bool
  /-- the contents of memory handed out by `new GLchar[n]` -/
  heap : Nat → GLchar
  /-- the contents of the two local arrays before the loop writes them -/
  stack : Nat → vec4 α
  /-- the close flag of the window right after `glfwCreateWindow` -/
  closeAtCreation : Bool
  /-- whether the k-th `glfwPollEvents` receives a close request -/
  closeOnPoll : Nat → Bool
  /-- the cursor position, in pixels, after the k-th `glfwPollEvents` -/
  cursorOnPoll : Nat → α × α

/-! ## LoadShader (main.cpp 26-49) -/

/-- The call `shaderFile.read(buf, n)` on a stream positioned at the start:
the first `n` bytes of the buffer are overwritten by the first `n` bytes of
the stream, as far as the stream has them; nothing is read for `n ≤ 0`. -/
def streamRead (buf : List GLchar) (n : Int) (stream : List GLchar) : List GLchar :=
  stream.take n.toNat ++ buf.drop (min n.toNat stream.length)

/-- The function `LoadShader`: `runtime_error` when the file cannot be
opened; otherwise the length is the `long` that `tellg` gives at the end of
the stream, `new GLchar[length + 1]` takes that sum as a `size_t` and may
throw, one `read` of `length` bytes fills the array and a 0 is written at
index `length`. -/
def LoadShader (files : String → Option File) (newSucceeds : Nat → Bool)
    (heap : Nat → GLchar) (file : String) : Except Fault (List GLchar) :=
  match files file with
  | none => Except.error (Fault.runtime_error "COULD NOT FIND SHADER FILE")
  | some shaderFile =>
    let shaderFileLength : Int := shaderFile.tellgEnd
    let size : Nat := ((shaderFileLength + 1) % 18446744073709551616).toNat
    if newSucceeds size then
      let shaderCode := (List.range size).map heap
      let shaderCode := streamRead shaderCode shaderFileLength shaderFile.bytes
      if 0 ≤ shaderFileLength ∧ shaderFileLength < (size : Int) then
        Except.ok (shaderCode.set shaderFileLength.toNat 0)
      else Except.error Fault.outOfBounds
    else Except.error Fault.bad_alloc

/-! ## Host-visible state and the calls issued -/

/-- The three shader stages main.cpp creates. -/
inductive ShaderType where
  | GL_VERTEX_SHADER
  | GL_FRAGMENT_SHADER
  | GL_COMPUTE_SHADER
  deriving DecidableEq, Repr

/-- One call of main.cpp into GLFW, glad, OpenGL or the C++ runtime, with the
arguments that are plain numbers. -/
inductive Call where
  | srand
  | glfwInit
  | glfwWindowHint (value : Nat)
  | glfwCreateWindow (width height : Nat)
  | glfwMakeContextCurrent
  | glfwSwapInterval (interval : Nat)
  | gladLoadGL
  | glCreateVertexArrays (vao : Nat)
  | glBindVertexArray (vao : Nat)
  | glCreateBuffers (buffer : Nat)
  | glNamedBufferData (buffer size : Nat)
  | glBindBufferBase (index buffer : Nat)
  | glCreateShader (type : ShaderType) (shader : Nat)
  | glShaderSource (shader : Nat)
  | glCompileShader (shader : Nat)
  | glGetShaderInfoLog (shader : Nat)
  | coutInfolog
  | glCreateProgram (program : Nat)
  | glAttachShader (program shader : Nat)
  | glLinkProgram (program : Nat)
  | glDeleteShader (shader : Nat)
  | glGetProgramInfoLog (program : Nat)
  | glViewport (x y width height : Nat)
  | glClearColor
  | glPointSize
  | glfwWindowShouldClose
  | glClear
  | glfwPollEvents
  | glfwGetCursorPos
  | glNamedBufferSubData (buffer offset size : Nat)
  | glUseProgram (program : Nat)
  | glDispatchCompute (num_groups_x num_groups_y num_groups_z : Nat)
  | glDrawArraysInstanced (first count instancecount : Nat)
  | glfwSwapBuffers
  | glDeleteProgram (program : Nat)
  | deleteArray
  | glfwDestroyWindow
  | glfwTerminate
  deriving DecidableEq, Repr

/-- A buffer object as the host sees it: the size of its data store in bytes
and the floats the host last wrote there. -/
structure Buffer (α : Type) where
  size : Nat
  data : List α

/-- The host-visible state of a run. -/
structure State (α : Type) where
  /-- the window close flag -/
  shouldClose : Bool
  /-- the number of `glfwPollEvents` calls so far -/
  polls : Nat
  /-- the cursor position GLFW last recorded -/
  cursorPos : α × α
  /-- the next unused buffer name -/
  nextBuffer : Nat
  /-- the next unused vertex-array name -/
  nextVertexArray : Nat
  /-- the next unused shader / program name -/
  nextObject : Nat
  /-- the buffer objects by name -/
  buffers : Nat → Option (Buffer α)
  /-- the indexed `GL_SHADER_STORAGE_BUFFER` binding points, 0 for unbound -/
  ssbo : Nat → Nat
  /-- the calls issued so far, oldest first -/
  trace : List Call

/-- How a run of `main` ends. -/
inductive Outcome (α : Type) where
  /-- `main` returned this exit code -/
  | returned (code : Int) (s : State α)
  /-- a `LoadShader` call ended the run in this state: by an exception, which
  nothing in `main` catches, or by an out-of-bounds write, after which the run
  is not followed -/
  | stopped (fault : Fault) (s : State α)

variable {α : Type} [Field α]

/-- Record one call. -/
def emit (c : Call) (s : State α) : State α :=
  { s with trace := s.trace ++ [c] }

/-- The state before `main` has done anything. -/
def State.start (w : World α) : State α :=
  { shouldClose := w.closeAtCreation, polls := 0, cursorPos := (0, 0),
    nextBuffer := 1, nextVertexArray := 1, nextObject := 1,
    buffers := fun _ => none, ssbo := fun _ => 0, trace := [] }

/-- The call `glCreateVertexArrays(1, &vao)`: a fresh name. -/
def glCreateVertexArrays (s : State α) : Nat × State α :=
  (s.nextVertexArray,
    emit (Call.glCreateVertexArrays s.nextVertexArray)
      { s with nextVertexArray := s.nextVertexArray + 1 })

/-- The call `glCreateBuffers(1, &b)`: a fresh name, for a buffer object with
an empty data store. -/
def glCreateBuffers (s : State α) : Nat × State α :=
  (s.nextBuffer,
    emit (Call.glCreateBuffers s.nextBuffer)
      { s with
        nextBuffer := s.nextBuffer + 1
        buffers := fun b => if b = s.nextBuffer then some ⟨0, []⟩ else s.buffers b })

/-- The call `glNamedBufferData(buffer, size, data, usage)`: the buffer gets a
new data store of `size` bytes holding the first `size` bytes at `data`. -/
def glNamedBufferData (buffer size : Nat) (data : List α) (s : State α) : State α :=
  emit (Call.glNamedBufferData buffer size)
    { s with
      buffers := fun b =>
        if b = buffer then
          (s.buffers b).map fun _ => ⟨size, data.take (size / sizeof_GLfloat)⟩
        else s.buffers b }

/-- The write of `glNamedBufferSubData` into one data store: the bytes
`offset .. offset + size` are replaced; a range that leaves the data store is
a GL error and writes nothing. -/
def Buffer.subData (b : Buffer α) (offset size : Nat) (data : List α) : Buffer α :=
  if offset + size ≤ b.size then
    { size := b.size
      data := b.data.take (offset / sizeof_GLfloat)
        ++ data.take (size / sizeof_GLfloat)
        ++ b.data.drop (offset / sizeof_GLfloat + size / sizeof_GLfloat) }
  else b

/-- The call `glNamedBufferSubData(buffer, offset, size, data)`. -/
def glNamedBufferSubData (buffer offset size : Nat) (data : List α) (s : State α) :
    State α :=
  emit (Call.glNamedBufferSubData buffer offset size)
    { s with
      buffers := fun b =>
        if b = buffer then (s.buffers b).map fun old => old.subData offset size data
        else s.buffers b }

/-- The call `glBindBufferBase(GL_SHADER_STORAGE_BUFFER, index, buffer)`. -/
def glBindBufferBase (index buffer : Nat) (s : State α) : State α :=
  emit (Call.glBindBufferBase index buffer)
    { s with ssbo := fun i => if i = index then buffer else s.ssbo i }

/-- The call `glCreateShader(type)`: a fresh object name. -/
def glCreateShader (type : ShaderType) (s : State α) : Nat × State α :=
  (s.nextObject,
    emit (Call.glCreateShader type s.nextObject) { s with nextObject := s.nextObject + 1 })

/-- The call `glCreateProgram()`: a fresh object name. -/
def glCreateProgram (s : State α) : Nat × State α :=
  (s.nextObject,
    emit (Call.glCreateProgram s.nextObject) { s with nextObject := s.nextObject + 1 })

/-- The call `glfwPollEvents()`: the pending events are processed, which may
set the close flag and moves the recorded cursor. -/
def glfwPollEvents (w : World α) (s : State α) : State α :=
  emit Call.glfwPollEvents
    { s with
      shouldClose := s.shouldClose || w.closeOnPoll s.polls
      cursorPos := w.cursorOnPoll s.polls
      polls := s.polls + 1 }

/-! ## main (main.cpp 51-224) -/

/-- The two local arrays `positions` and `velocities` of `main`. -/
structure Arrays (α : Type) where
  positions : List (vec4 α)
  velocities : List (vec4 α)

/-- The two arrays as declared (main.cpp 69-70): `n` elements each, holding
whatever the stack held. -/
def Arrays.declared (w : World α) (n : Nat) : Arrays α :=
  { positions := (List.range n).map w.stack, velocities := (List.range n).map w.stack }

/-- The value the initialisation loop computes for `positions[i]`
(main.cpp 72-76); `rand()` is called once an iteration, so iteration `i`
gets draw `i`. -/
def initialPosition (L : Libc α) (w : World α) (i : Nat) : vec4 α :=
  let r : α := (w.rand i : α) / (L.RAND_MAX : α)
  let r := r * 8
  let velx := r * L.sin (i : α) / 10
  let vely := r * L.cos (i : α) / 10
  ⟨velx, vely, 0, 0⟩

/-- The body of the initialisation loop (main.cpp 72-77) at index `i`. -/
def initBody (L : Libc α) (w : World α) (i : Nat) (a : Arrays α) : Arrays α :=
  { positions := a.positions.set i (initialPosition L w i)
    velocities := a.velocities.set i ⟨0, 0, 0, 0⟩ }

/-- The initialisation loop `for (int i = 0; i < n; i++)` (main.cpp 71-78). -/
def initLoop (L : Libc α) (w : World α) (n : Nat) (a : Arrays α) : Arrays α :=
  (List.range n).foldl (fun a i => initBody L w i a) a

/-- The arrays after declaration and initialisation (main.cpp 69-78). -/
def initParticles (d : Defines) (L : Libc α) (w : World α) : Arrays α :=
  initLoop L w d.NUM_PARTICLES (Arrays.declared w d.NUM_PARTICLES)

/-- Window setup (main.cpp 52-66). -/
def windowSetup (d : Defines) (w : World α) : State α :=
  State.start w
    |> emit Call.srand
    |> emit Call.glfwInit
    |> emit (Call.glfwWindowHint 4)
    |> emit (Call.glfwWindowHint 5)
    |> emit (Call.glfwCreateWindow d.SCREENX d.SCREENY)
    |> emit Call.glfwMakeContextCurrent
    |> emit (Call.glfwSwapInterval 1)
    |> emit Call.gladLoadGL

/-- The names `main` keeps of the objects it creates. -/
structure Handles where
  vao : Nat
  pos : Nat
  timebuffer : Nat
  vel : Nat
  cursor : Nat
  deriving DecidableEq, Repr

/-- The names of the two linked programs. -/
structure Programs where
  shaderProgram : Nat
  computeProgram : Nat
  deriving DecidableEq, Repr

/-- The local `const GLfloat delta_time = 0.1f` (main.cpp 54). -/
def delta_time : α := 1 / 10

/-- Vertex-array and buffer setup (main.cpp 80-107). -/
def bufferSetup (d : Defines) (a : Arrays α) (s : State α) : Handles × State α :=
  let (vao, s) := glCreateVertexArrays s
  let s := emit (Call.glBindVertexArray vao) s
  let (pos, s) := glCreateBuffers s
  let (timebuffer, s) := glCreateBuffers s
  let (vel, s) := glCreateBuffers s
  let (cursor, s) := glCreateBuffers s
  let s := glNamedBufferData vel (d.NUM_PARTICLES * sizeof_vec4) (floatsOf a.velocities) s
  let s := glNamedBufferData pos (d.NUM_PARTICLES * sizeof_vec4) (floatsOf a.positions) s
  let s := glNamedBufferData timebuffer sizeof_GLfloat [delta_time] s
  let s := glNamedBufferData cursor (2 * sizeof_GLfloat) (defaultCursor : vec2 α).value_ptr s
  let s := glBindBufferBase 0 pos s
  let s := glBindBufferBase 1 vel s
  let s := glBindBufferBase 2 cursor s
  let s := glBindBufferBase 3 timebuffer s
  ({ vao := vao, pos := pos, timebuffer := timebuffer, vel := vel, cursor := cursor }, s)

/-- Shader compilation, program linking and fixed render state
(main.cpp 118-164), once the three sources are loaded.  A failed compile or
link only leaves a message in the info log, which is printed. -/
def programSetup (d : Defines) (s : State α) : Programs × State α :=
  let (vertShader, s) := glCreateShader ShaderType.GL_VERTEX_SHADER s
  let (fragShader, s) := glCreateShader ShaderType.GL_FRAGMENT_SHADER s
  let (computeShader, s) := glCreateShader ShaderType.GL_COMPUTE_SHADER s
  let s := s
    |> emit (Call.glShaderSource vertShader)
    |> emit (Call.glShaderSource fragShader)
    |> emit (Call.glShaderSource computeShader)
    |> emit (Call.glCompileShader vertShader)
    |> emit (Call.glGetShaderInfoLog vertShader)
    |> emit Call.coutInfolog
    |> emit (Call.glCompileShader fragShader)
    |> emit (Call.glGetShaderInfoLog fragShader)
    |> emit Call.coutInfolog
    |> emit (Call.glCompileShader computeShader)
    |> emit (Call.glGetShaderInfoLog computeShader)
    |> emit Call.coutInfolog
  let (shaderProgram, s) := glCreateProgram s
  let s := s
    |> emit (Call.glAttachShader shaderProgram vertShader)
    |> emit (Call.glAttachShader shaderProgram fragShader)
    |> emit (Call.glLinkProgram shaderProgram)
    |> emit (Call.glDeleteShader vertShader)
    |> emit (Call.glDeleteShader fragShader)
    |> emit (Call.glGetProgramInfoLog shaderProgram)
    |> emit Call.coutInfolog
  let (computeProgram, s) := glCreateProgram s
  let s := s
    |> emit (Call.glAttachShader computeProgram computeShader)
    |> emit (Call.glLinkProgram computeProgram)
    |> emit (Call.glDeleteShader computeShader)
    |> emit (Call.glGetProgramInfoLog computeProgram)
    |> emit Call.coutInfolog
    |> emit (Call.glViewport 0 0 d.SCREENX d.SCREENY)
    |> emit Call.glClearColor
    |> emit Call.glPointSize
  ({ shaderProgram := shaderProgram, computeProgram := computeProgram }, s)

/-- The cursor transform of the draw loop (main.cpp 177-183 and 188), from
pixels to normalised device coordinates; `SCREENX / 2` and `SCREENY / 2` are
integer divisions. -/
def cursorTransform (d : Defines) (cursor : α × α) : vec2 α :=
  let cursorx := cursor.1
  let cursory := cursor.2
  let cursorx := cursorx - ((d.SCREENX / 2 : Nat) : α)
  let cursorx := cursorx / (d.SCREENX : α)
  let cursorx := cursorx * 2
  let cursory := cursory - ((d.SCREENY / 2 : Nat) : α)
  let cursory := cursory / (d.SCREENY : α)
  let cursory := cursory * (-2)
  ⟨cursorx, cursory⟩

/-- One iteration of the draw loop (main.cpp 168-206). -/
def frame (d : Defines) (w : World α) (h : Handles) (p : Programs) (s : State α) :
    State α :=
  let s := emit Call.glClear s
  let s := glfwPollEvents w s
  let s := emit Call.glfwGetCursorPos s
  let current_cursor := cursorTransform d s.cursorPos
  let s := glNamedBufferSubData h.cursor 0 (2 * sizeof_GLfloat) current_cursor.value_ptr s
  let s := emit (Call.glUseProgram p.computeProgram) s
  let s := emit (Call.glDispatchCompute (d.NUM_PARTICLES / d.WORK_GROUP_SIZE) 1 1) s
  let s := emit (Call.glUseProgram p.shaderProgram) s
  let s := emit (Call.glDrawArraysInstanced 0 1 d.NUM_PARTICLES) s
  emit Call.glfwSwapBuffers s

/-- The draw loop `while (glfwWindowShouldClose(window) == 0)` (main.cpp
167-207), run for at most `fuel` tests of its condition; `none` when the
loop is still running after them. -/
def drawLoop (d : Defines) (w : World α) (h : Handles) (p : Programs) :
    Nat → State α → Option (State α)
  | 0, _ => none
  | fuel + 1, s =>
    let s := emit Call.glfwWindowShouldClose s
    if s.shouldClose then some s else drawLoop d w h p fuel (frame d w h p s)

/-- Shutdown (main.cpp 213-222). -/
def shutdown (p : Programs) (s : State α) : State α :=
  s |> emit (Call.glDeleteProgram p.shaderProgram)
    |> emit (Call.glDeleteProgram p.computeProgram)
    |> emit Call.deleteArray
    |> emit Call.deleteArray
    |> emit Call.deleteArray
    |> emit Call.glfwDestroyWindow
    |> emit Call.glfwTerminate

/-- The three `LoadShader` calls of main.cpp 114-116; the first that does not
return ends the sequence. -/
def loadShaders (w : World α) :
    Except Fault (List GLchar × List GLchar × List GLchar) := do
  let vertCode ← LoadShader w.files w.newSucceeds w.heap "shader.vert"
  let fragCode ← LoadShader w.files w.newSucceeds w.heap "shader.frag"
  let computeCode ← LoadShader w.files w.newSucceeds w.heap "cursor.glsl"
  pure (vertCode, fragCode, computeCode)

/-- The state of `main` when it reaches the draw loop, with the names it holds
(main.cpp 52-164); an error when a `LoadShader` call does not return, with
the state at that call. -/
def setup (d : Defines) (L : Libc α) (w : World α) :
    Except (Fault × State α) (Handles × Programs × State α) :=
  let s := windowSetup d w
  let (h, s) := bufferSetup d (initParticles d L w) s
  match loadShaders w with
  | Except.error fault => Except.error (fault, s)
  | Except.ok _ =>
    let (p, s) := programSetup d s
    Except.ok (h, p, s)

/-- The function `main`, with the draw loop given `fuel` tests of its
condition: `none` when the loop is still running after them. -/
def mainWith (d : Defines) (L : Libc α) (w : World α) (fuel : Nat) :
    Option (Outcome α) :=
  match setup d L w with
  | Except.error (fault, s) => some (Outcome.stopped fault s)
  | Except.ok (h, p, s) =>
    match drawLoop d w h p fuel s with
    | none => none
    | some s => some (Outcome.returned 0 (shutdown p s))

/-- The function `main` as compiled, with the `#define`s of main.cpp. -/
def main (L : Libc α) (w : World α) (fuel : Nat) : Option (Outcome α) :=
  mainWith defines L w fuel

/-- Whether a call is a compute dispatch. -/
def Call.isDispatch : Call → Bool
  | Call.glDispatchCompute _ _ _ => true
  | _ => false

/-- Whether a call is a draw call. -/
def Call.isDraw : Call → Bool
  | Call.glDrawArraysInstanced _ _ _ => true
  | _ => false

/-- The number of compute dispatches in a trace. -/
def dispatches (t : List Call) : Nat := t.countP Call.isDispatch

/-- The number of draw calls in a trace. -/
def draws (t : List Call) : Nat := t.countP Call.isDraw

/-- The state at the top of the draw loop after `k` more full iterations
(a test of the loop condition, then the body), starting from `s`. -/
def loopState (d : Defines) (w : World α) (h : Handles) (p : Programs) :
    Nat → State α → State α
  | 0, s => s
  | k + 1, s => loopState d w h p k (frame d w h p (emit Call.glfwWindowShouldClose s))

/-- Whether a call writes a buffer's data store from the host. -/
def Call.isBufferWrite : Call → Bool
  | Call.glNamedBufferData _ _ => true
  | Call.glNamedBufferSubData _ _ _ => true
  | _ => false

/-- The buffer object bound at a shader-storage binding slot. -/
def State.slot (s : State α) (i : Nat) : Option (Buffer α) := s.buffers (s.ssbo i)

/-- A world for examples: no file can be opened, every draw of `rand()` is
the `RAND_MAX` of glibc, the window is never asked to close, the cursor
rests at the top-left pixel. -/
def World.bare : World α :=
  { rand := fun _ => 2147483647, files := fun _ => none,
    newSucceeds := fun n => decide (n ≤ 4294967296), heap := fun _ => 0,
    stack := fun _ => ⟨0, 0, 0, 0⟩, closeAtCreation := false,
    closeOnPoll := fun _ => false, cursorOnPoll := fun _ => (0, 0) }

/-- A world for examples in which the three shader files are regular files of
a few bytes each, arrays of up to 4 GiB can be allocated, and the first poll
of events asks the window to close with the cursor at the centre of the
screen. -/
def World.closing : World α :=
  { rand := fun k => k, files := fun path =>
      if path = "shader.vert" then some ⟨[118, 49], 2⟩
      else if path = "shader.frag" then some ⟨[102], 1⟩
      else if path = "cursor.glsl" then some ⟨[], 0⟩
      else none,
    newSucceeds := fun n => decide (n ≤ 4294967296),
    heap := fun _ => 255, stack := fun _ => ⟨7, 7, 7, 7⟩, closeAtCreation := false,
    closeOnPoll := fun _ => true, cursorOnPoll := fun _ => (960, 540) }

/-- A world for examples in which two shader paths name special files:
`shader.vert` delivers six bytes but reports 0 as its end position, as a file
of procfs does; `shader.frag` is a directory, which opens, delivers nothing
and reports `LONG_MAX` as its end position.  Arrays of up to 4 GiB can be
allocated. -/
def World.special : World α :=
  { rand := fun k => k, files := fun path =>
      if path = "shader.vert" then some ⟨[49, 50, 51, 52, 53, 10], 0⟩
      else if path = "shader.frag" then some ⟨[], LONG_MAX⟩
      else none,
    newSucceeds := fun n => decide (n ≤ 4294967296),
    heap := fun _ => 255, stack := fun _ => ⟨7, 7, 7, 7⟩, closeAtCreation := false,
    closeOnPoll := fun _ => true, cursorOnPoll := fun _ => (960, 540) }

/-- A C library for examples, over the rationals, with the `RAND_MAX` of
glibc; its `sin` and `cos` are exact at 0 and first-order elsewhere. -/
def Libc.sample : Libc ℚ :=
  { sin := fun x => x, cos := fun _ => 1, RAND_MAX := 2147483647 }

/-! ## The calls of one frame -/

/-- The calls one iteration of the draw loop adds to the trace, in order. -/
theorem frame_trace (d : Defines) (w : World α) (h : Handles) (p : Programs)
    (s : State α) :
    (frame d w h p s).trace = s.trace ++
      [Call.glClear, Call.glfwPollEvents, Call.glfwGetCursorPos,
       Call.glNamedBufferSubData h.cursor 0 (2 * sizeof_GLfloat),
       Call.glUseProgram p.computeProgram,
       Call.glDispatchCompute (d.NUM_PARTICLES / d.WORK_GROUP_SIZE) 1 1,
       Call.glUseProgram p.shaderProgram,
       Call.glDrawArraysInstanced 0 1 d.NUM_PARTICLES,
       Call.glfwSwapBuffers] := by
  simp [frame, emit, glfwPollEvents, glNamedBufferSubData]

/-- The dispatches of the trace after one more frame. -/
theorem frame_filter_isDispatch (d : Defines) (w : World α) (h : Handles)
    (p : Programs) (s : State α) :
    (frame d w h p s).trace.filter Call.isDispatch =
      s.trace.filter Call.isDispatch ++
        [Call.glDispatchCompute (d.NUM_PARTICLES / d.WORK_GROUP_SIZE) 1 1] := by
  rw [frame_trace]
  simp [List.filter_cons, Call.isDispatch]

/-! ## C1: the cursor transform -/

/-- C1: with the screen fixed at 1920x1080, the cursor transform of the draw
loop, over exact rationals, maps the screen centre (960, 540) to (0, 0) and
the corner pixels (0,0), (1920,0), (0,1080), (1920,1080) to (-1, 1), (1, 1),
(-1, -1), (1, -1). -/
theorem cursorTransform_centre_and_corners :
    cursorTransform defines ((960, 540) : ℚ × ℚ) = ⟨0, 0⟩ ∧
    cursorTransform defines ((0, 0) : ℚ × ℚ) = ⟨-1, 1⟩ ∧
    cursorTransform defines ((1920, 0) : ℚ × ℚ) = ⟨1, 1⟩ ∧
    cursorTransform defines ((0, 1080) : ℚ × ℚ) = ⟨-1, -1⟩ ∧
    cursorTransform defines ((1920, 1080) : ℚ × ℚ) = ⟨1, -1⟩ := by
  simp only [cursorTransform, defines, SCREENX, SCREENY]
  norm_num

/-! ## C2: the dispatch count of the compiled constants -/

/-- C2: for NUM_PARTICLES = 100000 and WORK_GROUP_SIZE = 1000 the particle
count is divisible by the work-group size, the one dispatch every frame
issues is `glDispatchCompute(100, 1, 1)`, and 100 groups of WORK_GROUP_SIZE
are exactly NUM_PARTICLES. -/
theorem dispatch_count_compiled (w : World α) (h : Handles) (p : Programs)
    (s : State α) :
    NUM_PARTICLES = 100000 ∧ WORK_GROUP_SIZE = 1000 ∧
    NUM_PARTICLES % WORK_GROUP_SIZE = 0 ∧
    (frame defines w h p s).trace.filter Call.isDispatch =
      s.trace.filter Call.isDispatch ++ [Call.glDispatchCompute 100 1 1] ∧
    100 * WORK_GROUP_SIZE = NUM_PARTICLES := by
  refine ⟨rfl, rfl, by decide, ?_, by decide⟩
  rw [frame_filter_isDispatch]
  rfl

/-! ## C9: the dispatch count for arbitrary constants -/

/-- C9, the claim refuted: with 100001 particles and work groups of 1000 the
frame dispatches 100 groups, while ceil(100001 / 1000) is 101; the 100000
invocations dispatched do not cover the 100001 particles. -/
theorem dispatch_count_not_ceil :
    (frame ⟨100001, 1000, 1920, 1080⟩ World.bare ⟨1, 1, 2, 3, 4⟩ ⟨4, 5⟩
        (State.start (World.bare : World ℚ))).trace.filter Call.isDispatch
      = [Call.glDispatchCompute 100 1 1] ∧
    ⌈(100001 : ℚ) / 1000⌉₊ = 101 ∧ 100 * 1000 < 100001 := by
  refine ⟨?_, ?_, by norm_num⟩
  · rw [frame_filter_isDispatch]
    rfl
  · rw [Nat.ceil_eq_iff (by norm_num)]
    norm_num

/-- C9 as amended: for every particle count N and work-group size W > 0 the
one dispatch of a frame has N / W groups along x, rounded down, and 1 along
y and z; the groups dispatched hold at most N invocations and one more group
would exceed N; the count is ceil(N / W), and the invocations cover the N
particles, exactly when W divides N. -/
theorem dispatch_count_floor (d : Defines) (w : World α) (h : Handles)
    (p : Programs) (s : State α) (hW : 0 < d.WORK_GROUP_SIZE) :
    (frame d w h p s).trace.filter Call.isDispatch =
      s.trace.filter Call.isDispatch ++
        [Call.glDispatchCompute ⌊(d.NUM_PARTICLES : ℚ) / d.WORK_GROUP_SIZE⌋₊ 1 1] ∧
    ⌊(d.NUM_PARTICLES : ℚ) / d.WORK_GROUP_SIZE⌋₊ * d.WORK_GROUP_SIZE ≤ d.NUM_PARTICLES ∧
    d.NUM_PARTICLES <
      (⌊(d.NUM_PARTICLES : ℚ) / d.WORK_GROUP_SIZE⌋₊ + 1) * d.WORK_GROUP_SIZE ∧
    (⌊(d.NUM_PARTICLES : ℚ) / d.WORK_GROUP_SIZE⌋₊ =
        ⌈(d.NUM_PARTICLES : ℚ) / d.WORK_GROUP_SIZE⌉₊ ↔
      d.WORK_GROUP_SIZE ∣ d.NUM_PARTICLES) ∧
    (d.NUM_PARTICLES ≤ ⌊(d.NUM_PARTICLES : ℚ) / d.WORK_GROUP_SIZE⌋₊ * d.WORK_GROUP_SIZE ↔
      d.WORK_GROUP_SIZE ∣ d.NUM_PARTICLES) := by
  obtain ⟨N, W, X, Y⟩ := d
  simp only at hW ⊢
  have hfloor : ⌊(N : ℚ) / W⌋₊ = N / W := Nat.floor_div_eq_div N W
  rw [hfloor]
  have hle : N / W * W ≤ N := Nat.div_mul_le_self N W
  have hlt : N < (N / W + 1) * W := by
    have := Nat.lt_succ_iff.mpr (le_refl (N / W))
    exact (Nat.div_lt_iff_lt_mul hW).mp this
  have hcover : N ≤ N / W * W ↔ W ∣ N := by
    constructor
    · intro hN
      exact Dvd.intro_left (N / W) (le_antisymm hle hN)
    · intro hdvd
      exact le_of_eq (Nat.div_mul_cancel hdvd).symm
  refine ⟨frame_filter_isDispatch _ w h p s, hle, hlt, ?_, hcover⟩
  have hWq : (0 : ℚ) < W := by exact_mod_cast hW
  constructor
  · intro hc
    apply hcover.mp
    have h1 : (N : ℚ) / W ≤ ((N / W : ℕ) : ℚ) := by
      rw [hc]
      exact Nat.le_ceil _
    have h2 : (N : ℚ) ≤ ((N / W : ℕ) : ℚ) * W := (div_le_iff₀ hWq).mp h1
    exact_mod_cast h2
  · intro hdvd
    have hq : (N : ℚ) / W = ((N / W : ℕ) : ℚ) := by
      rw [Nat.cast_div hdvd (ne_of_gt hWq)]
    rw [hq, Nat.ceil_natCast]

/-- A witness of C9 as amended: the compiled constants. -/
theorem dispatch_count_floor_witness :
    0 < defines.WORK_GROUP_SIZE ∧
    ((frame defines World.bare ⟨1, 1, 2, 3, 4⟩ ⟨4, 5⟩
        (State.start (World.bare : World ℚ))).trace.filter Call.isDispatch =
      (State.start (World.bare : World ℚ)).trace.filter Call.isDispatch ++
        [Call.glDispatchCompute ⌊(defines.NUM_PARTICLES : ℚ) / defines.WORK_GROUP_SIZE⌋₊ 1 1] ∧
    ⌊(defines.NUM_PARTICLES : ℚ) / defines.WORK_GROUP_SIZE⌋₊ * defines.WORK_GROUP_SIZE
      ≤ defines.NUM_PARTICLES ∧
    defines.NUM_PARTICLES <
      (⌊(defines.NUM_PARTICLES : ℚ) / defines.WORK_GROUP_SIZE⌋₊ + 1) * defines.WORK_GROUP_SIZE ∧
    (⌊(defines.NUM_PARTICLES : ℚ) / defines.WORK_GROUP_SIZE⌋₊ =
        ⌈(defines.NUM_PARTICLES : ℚ) / defines.WORK_GROUP_SIZE⌉₊ ↔
      defines.WORK_GROUP_SIZE ∣ defines.NUM_PARTICLES) ∧
    (defines.NUM_PARTICLES ≤
        ⌊(defines.NUM_PARTICLES : ℚ) / defines.WORK_GROUP_SIZE⌋₊ * defines.WORK_GROUP_SIZE ↔
      defines.WORK_GROUP_SIZE ∣ defines.NUM_PARTICLES)) :=
  ⟨by decide, dispatch_count_floor defines World.bare ⟨1, 1, 2, 3, 4⟩ ⟨4, 5⟩
    (State.start (World.bare : World ℚ)) (by decide)⟩

/-! ## C5, C6: LoadShader -/

/-- The last element of a fresh array of `n + 1` bytes. -/
theorem drop_map_range_succ {β : Type} (f : Nat → β) (n : Nat) :
    ((List.range (n + 1)).map f).drop n = [f n] := by
  rw [List.range_succ, List.map_append, List.drop_append_of_le_length (by simp)]
  simp

/-- What `LoadShader` returns for a file that opens, whose end position is
its number of bytes, when the allocation succeeds. -/
theorem LoadShader_regular (files : String → Option File) (newSucceeds : Nat → Bool)
    (heap : Nat → GLchar) (file : String) (f : File) (hfile : files file = some f)
    (hlen : f.tellgEnd = f.bytes.length) (hlong : f.tellgEnd ≤ LONG_MAX)
    (hnew : newSucceeds (f.bytes.length + 1) = true) :
    LoadShader files newSucceeds heap file = Except.ok (f.bytes ++ [0]) := by
  have hsize : ((f.tellgEnd + 1) % 18446744073709551616).toNat = f.bytes.length + 1 := by
    unfold LONG_MAX at hlong
    omega
  have hidx : f.tellgEnd.toNat = f.bytes.length := by omega
  have hin : 0 ≤ f.tellgEnd ∧ f.tellgEnd < ((f.bytes.length + 1 : Nat) : Int) := by
    constructor <;> omega
  simp only [LoadShader, hfile, hsize, hnew, if_true, streamRead, hidx, Nat.min_self,
    List.take_length, drop_map_range_succ, hin, and_self]
  rw [List.set_append_right _ _ (le_refl _)]
  simp

/-- What `LoadShader` returns for a file that does not open. -/
theorem LoadShader_none (files : String → Option File) (newSucceeds : Nat → Bool)
    (heap : Nat → GLchar) (file : String) (hfile : files file = none) :
    LoadShader files newSucceeds heap file =
      Except.error (Fault.runtime_error "COULD NOT FIND SHADER FILE") := by
  simp only [LoadShader, hfile]

/-- A file that opens never gives the `runtime_error`. -/
theorem LoadShader_some_ne (files : String → Option File) (newSucceeds : Nat → Bool)
    (heap : Nat → GLchar) (file : String) (f : File) (hfile : files file = some f)
    (what : String) :
    LoadShader files newSucceeds heap file ≠ Except.error (Fault.runtime_error what) := by
  simp only [LoadShader, hfile]
  split
  · split <;> simp
  · simp

/-- C5, the claim refuted: in the example world of special files
`shader.vert` opens and delivers six bytes, its end position being 0, and
LoadShader returns the one byte 0, not the seven bytes claimed;
`shader.frag` opens, delivers no byte, its end position being `LONG_MAX`, and
LoadShader throws `std::bad_alloc` where a buffer of one byte is claimed. -/
theorem LoadShader_special_files :
    (World.special : World ℚ).files "shader.vert" = some ⟨[49, 50, 51, 52, 53, 10], 0⟩ ∧
    LoadShader (World.special : World ℚ).files (World.special : World ℚ).newSucceeds
      (World.special : World ℚ).heap "shader.vert" = Except.ok [0] ∧
    (World.special : World ℚ).files "shader.frag" = some ⟨[], LONG_MAX⟩ ∧
    LoadShader (World.special : World ℚ).files (World.special : World ℚ).newSucceeds
      (World.special : World ℚ).heap "shader.frag" = Except.error Fault.bad_alloc :=
  ⟨rfl, rfl, rfl, rfl⟩

/-- C5 as amended: for every file that can be opened, with byte contents b,
whose end position as `tellg` reports it (a `long`) is |b|, and for which the
allocation of |b| + 1 bytes succeeds, LoadShader returns a buffer of exactly
|b| + 1 bytes whose first |b| bytes are b, in order, and whose last byte, at
index |b|, is 0. -/
theorem LoadShader_contents (files : String → Option File) (newSucceeds : Nat → Bool)
    (heap : Nat → GLchar) (file : String) (f : File) (hfile : files file = some f)
    (hlen : f.tellgEnd = f.bytes.length) (hlong : f.tellgEnd ≤ LONG_MAX)
    (hnew : newSucceeds (f.bytes.length + 1) = true) :
    ∃ buf, LoadShader files newSucceeds heap file = Except.ok buf ∧
      buf.length = f.bytes.length + 1 ∧ buf.take f.bytes.length = f.bytes ∧
      buf[f.bytes.length]? = some 0 ∧ buf.getLast? = some 0 := by
  refine ⟨f.bytes ++ [0],
    LoadShader_regular files newSucceeds heap file f hfile hlen hlong hnew, ?_, ?_, ?_, ?_⟩
  · simp
  · simp
  · simp
  · simp

/-- A witness of C5 as amended: the two-byte regular file `shader.vert` of the
example world. -/
theorem LoadShader_contents_witness :
    ((World.closing : World ℚ).files "shader.vert" = some ⟨[118, 49], 2⟩ ∧
      (File.mk [118, 49] 2).tellgEnd = (File.mk [118, 49] 2).bytes.length ∧
      (File.mk [118, 49] 2).tellgEnd ≤ LONG_MAX ∧
      (World.closing : World ℚ).newSucceeds ((File.mk [118, 49] 2).bytes.length + 1) = true) ∧
    ∃ buf, LoadShader (World.closing : World ℚ).files (World.closing : World ℚ).newSucceeds
        (World.closing : World ℚ).heap "shader.vert" = Except.ok buf ∧
      buf.length = (File.mk [118, 49] 2).bytes.length + 1 ∧
      buf.take (File.mk [118, 49] 2).bytes.length = (File.mk [118, 49] 2).bytes ∧
      buf[(File.mk [118, 49] 2).bytes.length]? = some 0 ∧ buf.getLast? = some 0 :=
  ⟨⟨rfl, rfl, by decide, rfl⟩,
    LoadShader_contents (World.closing : World ℚ).files (World.closing : World ℚ).newSucceeds
      (World.closing : World ℚ).heap "shader.vert" ⟨[118, 49], 2⟩ rfl rfl (by decide) rfl⟩

/-! ## The setup phases -/

/-- The calls of window setup. -/
theorem windowSetup_trace (d : Defines) (w : World α) :
    (windowSetup d w).trace =
      [Call.srand, Call.glfwInit, Call.glfwWindowHint 4, Call.glfwWindowHint 5,
       Call.glfwCreateWindow d.SCREENX d.SCREENY, Call.glfwMakeContextCurrent,
       Call.glfwSwapInterval 1, Call.gladLoadGL] := by
  simp [windowSetup, emit, State.start]

/-- The names buffer setup hands to `main`. -/
theorem bufferSetup_handles (d : Defines) (a : Arrays α) (s : State α) :
    (bufferSetup d a s).1 =
      { vao := s.nextVertexArray, pos := s.nextBuffer, timebuffer := s.nextBuffer + 1,
        vel := s.nextBuffer + 2, cursor := s.nextBuffer + 3 } := by
  simp [bufferSetup, glCreateVertexArrays, glCreateBuffers, glNamedBufferData,
    glBindBufferBase, emit]

/-- The calls of buffer setup. -/
theorem bufferSetup_trace (d : Defines) (a : Arrays α) (s : State α) :
    (bufferSetup d a s).2.trace = s.trace ++
      [Call.glCreateVertexArrays s.nextVertexArray, Call.glBindVertexArray s.nextVertexArray,
       Call.glCreateBuffers s.nextBuffer, Call.glCreateBuffers (s.nextBuffer + 1),
       Call.glCreateBuffers (s.nextBuffer + 2), Call.glCreateBuffers (s.nextBuffer + 3),
       Call.glNamedBufferData (s.nextBuffer + 2) (d.NUM_PARTICLES * sizeof_vec4),
       Call.glNamedBufferData s.nextBuffer (d.NUM_PARTICLES * sizeof_vec4),
       Call.glNamedBufferData (s.nextBuffer + 1) sizeof_GLfloat,
       Call.glNamedBufferData (s.nextBuffer + 3) (2 * sizeof_GLfloat),
       Call.glBindBufferBase 0 s.nextBuffer, Call.glBindBufferBase 1 (s.nextBuffer + 2),
       Call.glBindBufferBase 2 (s.nextBuffer + 3),
       Call.glBindBufferBase 3 (s.nextBuffer + 1)] := by
  simp [bufferSetup, glCreateVertexArrays, glCreateBuffers, glNamedBufferData,
    glBindBufferBase, emit]

/-- Buffer setup leaves the window alone. -/
theorem bufferSetup_window (d : Defines) (a : Arrays α) (s : State α) :
    (bufferSetup d a s).2.shouldClose = s.shouldClose ∧
    (bufferSetup d a s).2.polls = s.polls := by
  simp [bufferSetup, glCreateVertexArrays, glCreateBuffers, glNamedBufferData,
    glBindBufferBase, emit]

/-- The binding table after buffer setup. -/
theorem bufferSetup_ssbo (d : Defines) (a : Arrays α) (s : State α) (i : Nat) :
    (bufferSetup d a s).2.ssbo i =
      if i = 3 then s.nextBuffer + 1 else if i = 2 then s.nextBuffer + 3
      else if i = 1 then s.nextBuffer + 2 else if i = 0 then s.nextBuffer
      else s.ssbo i := by
  simp [bufferSetup, glCreateVertexArrays, glCreateBuffers, glNamedBufferData,
    glBindBufferBase, emit]

/-- The four buffer objects after buffer setup. -/
theorem bufferSetup_buffers (d : Defines) (a : Arrays α) (s : State α) :
    (bufferSetup d a s).2.buffers s.nextBuffer =
      some ⟨d.NUM_PARTICLES * sizeof_vec4,
        (floatsOf a.positions).take (d.NUM_PARTICLES * sizeof_vec4 / sizeof_GLfloat)⟩ ∧
    (bufferSetup d a s).2.buffers (s.nextBuffer + 2) =
      some ⟨d.NUM_PARTICLES * sizeof_vec4,
        (floatsOf a.velocities).take (d.NUM_PARTICLES * sizeof_vec4 / sizeof_GLfloat)⟩ ∧
    (bufferSetup d a s).2.buffers (s.nextBuffer + 3) = some ⟨8, [0, 0]⟩ ∧
    (bufferSetup d a s).2.buffers (s.nextBuffer + 1) = some ⟨4, [delta_time]⟩ := by
  simp [bufferSetup, glCreateVertexArrays, glCreateBuffers, glNamedBufferData,
    glBindBufferBase, emit, sizeof_GLfloat, defaultCursor, vec2.value_ptr, Nat.add_assoc]

omit [Field α] in
/-- Recording a call changes the trace only. -/
@[simp]
theorem emit_shouldClose (c : Call) (s : State α) :
    (emit c s).shouldClose = s.shouldClose := rfl

omit [Field α] in
/-- Recording a call leaves the poll counter. -/
@[simp]
theorem emit_polls (c : Call) (s : State α) : (emit c s).polls = s.polls := rfl

omit [Field α] in
/-- Recording a call leaves the cursor. -/
@[simp]
theorem emit_cursorPos (c : Call) (s : State α) :
    (emit c s).cursorPos = s.cursorPos := rfl

omit [Field α] in
/-- Recording a call leaves the buffers. -/
@[simp]
theorem emit_buffers (c : Call) (s : State α) : (emit c s).buffers = s.buffers := rfl

omit [Field α] in
/-- Recording a call leaves the binding table. -/
@[simp]
theorem emit_ssbo (c : Call) (s : State α) : (emit c s).ssbo = s.ssbo := rfl

omit [Field α] in
/-- Recording a call leaves the object counter. -/
@[simp]
theorem emit_nextObject (c : Call) (s : State α) :
    (emit c s).nextObject = s.nextObject := rfl

omit [Field α] in
/-- Recording a call leaves the buffer counter. -/
@[simp]
theorem emit_nextBuffer (c : Call) (s : State α) :
    (emit c s).nextBuffer = s.nextBuffer := rfl

omit [Field α] in
/-- Recording a call appends it to the trace. -/
@[simp]
theorem emit_trace (c : Call) (s : State α) : (emit c s).trace = s.trace ++ [c] := rfl

omit [Field α] in
/-- Program setup touches neither the window nor the buffers nor the binding
table. -/
theorem programSetup_frame (d : Defines) (s : State α) :
    (programSetup d s).2.shouldClose = s.shouldClose ∧
    (programSetup d s).2.polls = s.polls ∧
    (programSetup d s).2.buffers = s.buffers ∧
    (programSetup d s).2.ssbo = s.ssbo := by
  simp only [programSetup, glCreateShader, glCreateProgram, emit_shouldClose, emit_polls,
    emit_buffers, emit_ssbo, and_self]

omit [Field α] in
/-- The names of the two programs. -/
theorem programSetup_programs (d : Defines) (s : State α) :
    (programSetup d s).1 =
      { shaderProgram := s.nextObject + 3, computeProgram := s.nextObject + 4 } := by
  simp only [programSetup, glCreateShader, glCreateProgram, emit_nextObject]

omit [Field α] in
/-- The calls of program setup. -/
theorem programSetup_trace (d : Defines) (s : State α) :
    (programSetup d s).2.trace = s.trace ++
      [Call.glCreateShader ShaderType.GL_VERTEX_SHADER s.nextObject,
       Call.glCreateShader ShaderType.GL_FRAGMENT_SHADER (s.nextObject + 1),
       Call.glCreateShader ShaderType.GL_COMPUTE_SHADER (s.nextObject + 2),
       Call.glShaderSource s.nextObject, Call.glShaderSource (s.nextObject + 1),
       Call.glShaderSource (s.nextObject + 2),
       Call.glCompileShader s.nextObject, Call.glGetShaderInfoLog s.nextObject,
       Call.coutInfolog,
       Call.glCompileShader (s.nextObject + 1), Call.glGetShaderInfoLog (s.nextObject + 1),
       Call.coutInfolog,
       Call.glCompileShader (s.nextObject + 2), Call.glGetShaderInfoLog (s.nextObject + 2),
       Call.coutInfolog,
       Call.glCreateProgram (s.nextObject + 3),
       Call.glAttachShader (s.nextObject + 3) s.nextObject,
       Call.glAttachShader (s.nextObject + 3) (s.nextObject + 1),
       Call.glLinkProgram (s.nextObject + 3), Call.glDeleteShader s.nextObject,
       Call.glDeleteShader (s.nextObject + 1), Call.glGetProgramInfoLog (s.nextObject + 3),
       Call.coutInfolog,
       Call.glCreateProgram (s.nextObject + 4),
       Call.glAttachShader (s.nextObject + 4) (s.nextObject + 2),
       Call.glLinkProgram (s.nextObject + 4), Call.glDeleteShader (s.nextObject + 2),
       Call.glGetProgramInfoLog (s.nextObject + 4), Call.coutInfolog,
       Call.glViewport 0 0 d.SCREENX d.SCREENY, Call.glClearColor, Call.glPointSize] := by
  simp only [programSetup, glCreateShader, glCreateProgram, emit_trace, emit_nextObject,
    List.append_assoc, List.singleton_append, List.cons_append, List.nil_append]

omit [Field α] in
/-- Program setup issues neither a loop test nor a dispatch nor a draw. -/
theorem programSetup_counts (d : Defines) (s : State α) :
    dispatches (programSetup d s).2.trace = dispatches s.trace ∧
    draws (programSetup d s).2.trace = draws s.trace := by
  rw [programSetup_trace]
  simp [dispatches, draws, Call.isDispatch, Call.isDraw, List.countP_cons]

omit [Field α] in
/-- The three loads succeed when each of the three calls returns. -/
theorem loadShaders_ok (w : World α) (v f c : List GLchar)
    (hv : LoadShader w.files w.newSucceeds w.heap "shader.vert" = Except.ok v)
    (hf : LoadShader w.files w.newSucceeds w.heap "shader.frag" = Except.ok f)
    (hc : LoadShader w.files w.newSucceeds w.heap "cursor.glsl" = Except.ok c) :
    loadShaders w = Except.ok (v, f, c) := by
  simp only [loadShaders, hv, hf, hc]
  rfl

omit [Field α] in
/-- The three loads do not all return when one of the three files does not
open; when it is the first file, the fault is the `runtime_error`. -/
theorem loadShaders_error (w : World α)
    (hmissing : w.files "shader.vert" = none ∨ w.files "shader.frag" = none ∨
      w.files "cursor.glsl" = none) :
    ∃ fault, loadShaders w = Except.error fault ∧
      (w.files "shader.vert" = none →
        fault = Fault.runtime_error "COULD NOT FIND SHADER FILE") := by
  unfold loadShaders
  cases hv : LoadShader w.files w.newSucceeds w.heap "shader.vert" with
  | error e =>
    refine ⟨e, rfl, ?_⟩
    intro hnone
    rw [LoadShader_none _ _ _ _ hnone] at hv
    exact (Except.error.inj hv).symm
  | ok v =>
    have hvert : w.files "shader.vert" ≠ none := by
      intro hnone
      rw [LoadShader_none _ _ _ _ hnone] at hv
      exact Except.noConfusion hv
    cases hf : LoadShader w.files w.newSucceeds w.heap "shader.frag" with
    | error e => exact ⟨e, rfl, fun hnone => absurd hnone hvert⟩
    | ok f =>
      cases hc : LoadShader w.files w.newSucceeds w.heap "cursor.glsl" with
      | error e => exact ⟨e, rfl, fun hnone => absurd hnone hvert⟩
      | ok c =>
        exfalso
        rcases hmissing with hnone | hnone | hnone
        · exact hvert hnone
        · rw [LoadShader_none _ _ _ _ hnone] at hf
          exact Except.noConfusion hf
        · rw [LoadShader_none _ _ _ _ hnone] at hc
          exact Except.noConfusion hc

/-- The state in which `main` reaches the draw loop when the three loads
return. -/
theorem setup_ok (d : Defines) (L : Libc α) (w : World α) (v f c : List GLchar)
    (hv : LoadShader w.files w.newSucceeds w.heap "shader.vert" = Except.ok v)
    (hf : LoadShader w.files w.newSucceeds w.heap "shader.frag" = Except.ok f)
    (hc : LoadShader w.files w.newSucceeds w.heap "cursor.glsl" = Except.ok c) :
    setup d L w = Except.ok
      ((bufferSetup d (initParticles d L w) (windowSetup d w)).1,
       (programSetup d (bufferSetup d (initParticles d L w) (windowSetup d w)).2).1,
       (programSetup d (bufferSetup d (initParticles d L w) (windowSetup d w)).2).2) := by
  simp only [setup, loadShaders_ok w v f c hv hf hc]

/-- The state in which `main` is left when the loads end with a fault. -/
theorem setup_error (d : Defines) (L : Libc α) (w : World α) (fault : Fault)
    (hload : loadShaders w = Except.error fault) :
    setup d L w = Except.error (fault,
      (bufferSetup d (initParticles d L w) (windowSetup d w)).2) := by
  simp only [setup, hload]

/-- C6: LoadShader raises the `runtime_error` "COULD NOT FIND SHADER FILE" if
and only if the file at the path cannot be opened, and then it returns no
buffer at all; when one of the three shader files of main cannot be opened,
the first of the three loads not to return ends the run of main, whatever the
fuel, with the loop condition tested not once and no dispatch and no draw
issued, and when `shader.vert` is the file that cannot be opened, what ends
the run is that `runtime_error`, uncaught. -/
theorem LoadShader_fails_iff (files : String → Option File) (newSucceeds : Nat → Bool)
    (heap : Nat → GLchar) (file : String) (L : Libc α) (w : World α) (fuel : Nat)
    (hmissing : w.files "shader.vert" = none ∨ w.files "shader.frag" = none ∨
      w.files "cursor.glsl" = none) :
    (LoadShader files newSucceeds heap file =
        Except.error (Fault.runtime_error "COULD NOT FIND SHADER FILE") ↔
      files file = none) ∧
    (files file = none → ∀ buf, LoadShader files newSucceeds heap file ≠ Except.ok buf) ∧
    ∃ fault s, loadShaders w = Except.error fault ∧
      main L w fuel = some (Outcome.stopped fault s) ∧
      (w.files "shader.vert" = none →
        fault = Fault.runtime_error "COULD NOT FIND SHADER FILE") ∧
      Call.glfwWindowShouldClose ∉ s.trace ∧ dispatches s.trace = 0 ∧
      draws s.trace = 0 := by
  refine ⟨?_, ?_, ?_⟩
  · cases hfile : files file with
    | none => simp [LoadShader_none _ _ _ _ hfile]
    | some f => simp [LoadShader_some_ne _ _ _ _ f hfile]
  · intro hfile buf
    simp [LoadShader_none _ _ _ _ hfile]
  · obtain ⟨fault, hload, hfirst⟩ := loadShaders_error w hmissing
    refine ⟨fault,
      (bufferSetup defines (initParticles defines L w) (windowSetup defines w)).2,
      hload, ?_, hfirst, ?_, ?_, ?_⟩
    · simp only [main, mainWith, setup_error defines L w fault hload]
    · simp [bufferSetup_trace, windowSetup_trace]
    · simp [bufferSetup_trace, windowSetup_trace, dispatches, Call.isDispatch,
        List.countP_cons]
    · simp [bufferSetup_trace, windowSetup_trace, draws, Call.isDraw, List.countP_cons]

/-- A witness of C6: in the bare example world no shader file opens. -/
theorem LoadShader_fails_iff_witness :
    ((World.bare : World ℚ).files "shader.vert" = none ∨
      (World.bare : World ℚ).files "shader.frag" = none ∨
      (World.bare : World ℚ).files "cursor.glsl" = none) ∧
    (LoadShader (World.bare : World ℚ).files (World.bare : World ℚ).newSucceeds
        (World.bare : World ℚ).heap "shader.vert"
        = Except.error (Fault.runtime_error "COULD NOT FIND SHADER FILE") ↔
      (World.bare : World ℚ).files "shader.vert" = none) ∧
    ((World.bare : World ℚ).files "shader.vert" = none →
      ∀ buf, LoadShader (World.bare : World ℚ).files (World.bare : World ℚ).newSucceeds
        (World.bare : World ℚ).heap "shader.vert" ≠ Except.ok buf) ∧
    ∃ fault s, loadShaders (World.bare : World ℚ) = Except.error fault ∧
      main Libc.sample (World.bare : World ℚ) 5 = some (Outcome.stopped fault s) ∧
      ((World.bare : World ℚ).files "shader.vert" = none →
        fault = Fault.runtime_error "COULD NOT FIND SHADER FILE") ∧
      Call.glfwWindowShouldClose ∉ s.trace ∧ dispatches s.trace = 0 ∧
      draws s.trace = 0 :=
  ⟨Or.inl rfl, LoadShader_fails_iff (World.bare : World ℚ).files
    (World.bare : World ℚ).newSucceeds (World.bare : World ℚ).heap
    "shader.vert" Libc.sample World.bare 5 (Or.inl rfl)⟩

/-! ## C3, C4: the initialisation loop -/

/-- One more iteration of the initialisation loop. -/
theorem initLoop_succ (L : Libc α) (w : World α) (n : Nat) (a : Arrays α) :
    initLoop L w (n + 1) a = initBody L w n (initLoop L w n a) := by
  simp [initLoop, List.range_succ, List.foldl_append]

/-- The initialisation loop keeps the lengths of the arrays. -/
theorem initLoop_length (L : Libc α) (w : World α) (n : Nat) (a : Arrays α) :
    (initLoop L w n a).positions.length = a.positions.length ∧
    (initLoop L w n a).velocities.length = a.velocities.length := by
  induction n with
  | zero => simp [initLoop]
  | succ n ih => simp [initLoop_succ, initBody, ih]

/-- After `n` iterations every position below `n` holds its computed value. -/
theorem initLoop_positions (L : Libc α) (w : World α) (n : Nat) (a : Arrays α)
    (hn : n ≤ a.positions.length) (i : Nat) (hi : i < n) :
    (initLoop L w n a).positions[i]? = some (initialPosition L w i) := by
  induction n with
  | zero => omega
  | succ n ih =>
    have hlen := (initLoop_length L w n a).1
    rw [initLoop_succ]
    simp only [initBody, List.getElem?_set]
    by_cases hin : n = i
    · subst hin
      rw [if_pos rfl, if_pos (by omega)]
    · rw [if_neg hin]
      exact ih (by omega) (by omega)

/-- After `n` iterations every velocity below `n` is the zero vector. -/
theorem initLoop_velocities (L : Libc α) (w : World α) (n : Nat) (a : Arrays α)
    (hn : n ≤ a.velocities.length) (i : Nat) (hi : i < n) :
    (initLoop L w n a).velocities[i]? = some ⟨0, 0, 0, 0⟩ := by
  induction n with
  | zero => omega
  | succ n ih =>
    have hlen := (initLoop_length L w n a).2
    rw [initLoop_succ]
    simp only [initBody, List.getElem?_set]
    by_cases hin : n = i
    · subst hin
      rw [if_pos rfl, if_pos (by omega)]
    · rw [if_neg hin]
      exact ih (by omega) (by omega)

/-- The initialised arrays have `NUM_PARTICLES` elements each. -/
theorem initParticles_length (d : Defines) (L : Libc α) (w : World α) :
    (initParticles d L w).positions.length = d.NUM_PARTICLES ∧
    (initParticles d L w).velocities.length = d.NUM_PARTICLES := by
  simp [initParticles, initLoop_length, Arrays.declared]

/-- The initialised velocity array is all zero vectors. -/
theorem initParticles_velocities (d : Defines) (L : Libc α) (w : World α) :
    (initParticles d L w).velocities = List.replicate d.NUM_PARTICLES ⟨0, 0, 0, 0⟩ := by
  apply List.ext_getElem?
  intro i
  by_cases hi : i < d.NUM_PARTICLES
  · rw [initParticles, initLoop_velocities L w _ _ (by simp [Arrays.declared]) i hi]
    simp [List.getElem?_replicate, hi]
  · rw [List.getElem?_eq_none (by rw [(initParticles_length d L w).2]; omega),
      List.getElem?_eq_none (by simp; omega)]

omit [Field α] in
/-- An array of `n` vectors is `4 * n` floats. -/
theorem floatsOf_length (a : List (vec4 α)) : (floatsOf a).length = 4 * a.length := by
  induction a with
  | nil => rfl
  | cons v a ih =>
    simp only [floatsOf, List.flatMap_cons, List.length_append, vec4.value_ptr,
      List.length_cons, List.length_nil] at ih ⊢
    omega

/-- The floats of an array of zero vectors are zeros. -/
theorem floatsOf_replicate_zero (n : Nat) :
    floatsOf (List.replicate n (⟨0, 0, 0, 0⟩ : vec4 α)) = List.replicate (4 * n) 0 := by
  induction n with
  | zero => rfl
  | succ n ih =>
    have h4 : 4 * (n + 1) = 4 * n + 1 + 1 + 1 + 1 := by omega
    simp only [floatsOf, List.replicate_succ, List.flatMap_cons, vec4.value_ptr] at ih ⊢
    rw [ih, h4]
    simp [List.replicate_succ]

omit [Field α] in
/-- Uploading `sizeof(array)` bytes of an array uploads all of its floats. -/
theorem take_floatsOf (n : Nat) (a : List (vec4 α)) (ha : a.length = n) :
    (floatsOf a).take (n * sizeof_vec4 / sizeof_GLfloat) = floatsOf a := by
  apply List.take_of_length_le
  rw [floatsOf_length, ha]
  simp only [sizeof_vec4, sizeof_GLfloat]
  omega

/-- C3, the claim refuted: with the real sine and cosine and a first draw of
`rand()` equal to `RAND_MAX`, so that r = 8, the first position entry is
(0, 4/5, 0, 0), which is not (0, 0, 0, 0). -/
theorem positions_first_entry_nonzero :
    (initParticles defines ⟨Real.sin, Real.cos, 2147483647⟩
        (World.bare : World ℝ)).positions[0]? = some ⟨0, 4 / 5, 0, 0⟩ ∧
    (⟨0, 4 / 5, 0, 0⟩ : vec4 ℝ) ≠ ⟨0, 0, 0, 0⟩ := by
  constructor
  · rw [initParticles, initLoop_positions _ _ _ _ (by simp [Arrays.declared]) 0 (by decide)]
    simp only [initialPosition, World.bare, Nat.cast_zero, Real.sin_zero, Real.cos_zero]
    norm_num
  · simp

/-- C3 as amended: for every draw of `rand()`, with r the radius computed from
it, the first position entry after the initialisation loop is
(0, r / 10, 0, 0), the sine of 0 being 0 and the cosine of 0 being 1; it is
(0, 0, 0, 0) exactly when r = 0. -/
theorem positions_first_entry [CharZero α] (L : Libc α) (w : World α)
    (hsin : L.sin 0 = 0) (hcos : L.cos 0 = 1) :
    (initParticles defines L w).positions[0]? =
      some ⟨0, ((w.rand 0 : α) / (L.RAND_MAX : α) * 8) / 10, 0, 0⟩ ∧
    ((⟨0, ((w.rand 0 : α) / (L.RAND_MAX : α) * 8) / 10, 0, 0⟩ : vec4 α) = ⟨0, 0, 0, 0⟩ ↔
      (w.rand 0 : α) / (L.RAND_MAX : α) * 8 = 0) := by
  constructor
  · rw [initParticles, initLoop_positions _ _ _ _ (by simp [Arrays.declared]) 0 (by decide)]
    simp only [initialPosition, Nat.cast_zero, hsin, hcos, mul_zero, zero_div, mul_one]
  · simp

/-- A witness of C3 as amended: the real sine and cosine, every draw equal to
`RAND_MAX`. -/
theorem positions_first_entry_witness :
    Real.sin 0 = 0 ∧ Real.cos 0 = 1 ∧
    ((initParticles defines ⟨Real.sin, Real.cos, 2147483647⟩
        (World.bare : World ℝ)).positions[0]? =
      some ⟨0, (((World.bare : World ℝ).rand 0 : ℝ) / ((2147483647 : ℕ) : ℝ) * 8) / 10, 0, 0⟩ ∧
    ((⟨0, (((World.bare : World ℝ).rand 0 : ℝ) / ((2147483647 : ℕ) : ℝ) * 8) / 10, 0, 0⟩ :
        vec4 ℝ) = ⟨0, 0, 0, 0⟩ ↔
      ((World.bare : World ℝ).rand 0 : ℝ) / ((2147483647 : ℕ) : ℝ) * 8 = 0)) :=
  ⟨Real.sin_zero, Real.cos_zero,
    positions_first_entry ⟨Real.sin, Real.cos, 2147483647⟩ (World.bare : World ℝ)
      Real.sin_zero Real.cos_zero⟩

/-- C4: after the initialisation loop, for every sequence of random draws,
the velocity array has NUM_PARTICLES entries and each of them is (0, 0, 0, 0);
the velocity buffer is uploaded with 16 * NUM_PARTICLES bytes holding the
floats of exactly this array, 4 * NUM_PARTICLES zeros. -/
theorem velocities_all_zero (L : Libc α) (w : World α) :
    (initParticles defines L w).velocities.length = NUM_PARTICLES ∧
    (∀ i, i < NUM_PARTICLES →
      (initParticles defines L w).velocities[i]? = some ⟨0, 0, 0, 0⟩) ∧
    (bufferSetup defines (initParticles defines L w) (windowSetup defines w)).2.buffers
        (bufferSetup defines (initParticles defines L w) (windowSetup defines w)).1.vel =
      some ⟨16 * NUM_PARTICLES, floatsOf (initParticles defines L w).velocities⟩ ∧
    floatsOf (initParticles defines L w).velocities = List.replicate (4 * NUM_PARTICLES) 0 := by
  have hlen := (initParticles_length defines L w).2
  refine ⟨hlen, ?_, ?_, ?_⟩
  · intro i hi
    rw [initParticles_velocities]
    exact List.getElem?_replicate_of_lt hi
  · rw [bufferSetup_handles, (bufferSetup_buffers _ _ _).2.1, take_floatsOf _ _ hlen]
    simp only [defines, sizeof_vec4, sizeof_GLfloat, Nat.mul_comm]
  · rw [initParticles_velocities, floatsOf_replicate_zero]
    rfl

/-! ## C7: the four binding slots -/

/-- C7: after buffer setup in main, slot 0 holds the position buffer, of
16 * N bytes holding the 4 * N floats of the initial positions, slot 1 the
velocity buffer, of 16 * N bytes holding the 4 * N floats of the velocities,
slot 2 the cursor buffer, of 8 bytes holding (0, 0), and slot 3 the time-step
buffer, of 4 bytes holding 1/10, with N = NUM_PARTICLES; the four slots hold
four different buffers. -/
theorem slots_after_setup (L : Libc α) (w : World α) :
    (bufferSetup defines (initParticles defines L w) (windowSetup defines w)).2.slot 0 =
      some ⟨16 * NUM_PARTICLES, floatsOf (initParticles defines L w).positions⟩ ∧
    (floatsOf (initParticles defines L w).positions).length = 4 * NUM_PARTICLES ∧
    (bufferSetup defines (initParticles defines L w) (windowSetup defines w)).2.slot 1 =
      some ⟨16 * NUM_PARTICLES, floatsOf (initParticles defines L w).velocities⟩ ∧
    (floatsOf (initParticles defines L w).velocities).length = 4 * NUM_PARTICLES ∧
    (bufferSetup defines (initParticles defines L w) (windowSetup defines w)).2.slot 2 =
      some ⟨8, [0, 0]⟩ ∧
    (bufferSetup defines (initParticles defines L w) (windowSetup defines w)).2.slot 3 =
      some ⟨4, [1 / 10]⟩ ∧
    [(bufferSetup defines (initParticles defines L w) (windowSetup defines w)).2.ssbo 0,
     (bufferSetup defines (initParticles defines L w) (windowSetup defines w)).2.ssbo 1,
     (bufferSetup defines (initParticles defines L w) (windowSetup defines w)).2.ssbo 2,
     (bufferSetup defines (initParticles defines L w) (windowSetup defines w)).2.ssbo 3].Nodup ∧
    (bufferSetup defines (initParticles defines L w) (windowSetup defines w)).1 =
      { vao := 1,
        pos := (bufferSetup defines (initParticles defines L w) (windowSetup defines w)).2.ssbo 0,
        timebuffer :=
          (bufferSetup defines (initParticles defines L w) (windowSetup defines w)).2.ssbo 3,
        vel := (bufferSetup defines (initParticles defines L w) (windowSetup defines w)).2.ssbo 1,
        cursor :=
          (bufferSetup defines (initParticles defines L w) (windowSetup defines w)).2.ssbo 2 } := by
  have hlen := initParticles_length defines L w
  have hb := bufferSetup_buffers defines (initParticles defines L w) (windowSetup defines w)
  rw [take_floatsOf _ _ hlen.1, take_floatsOf _ _ hlen.2] at hb
  have hsize : defines.NUM_PARTICLES * sizeof_vec4 = 16 * NUM_PARTICLES := by
    simp only [defines, sizeof_vec4, sizeof_GLfloat, Nat.mul_comm]
  rw [hsize] at hb
  simp only [State.slot, bufferSetup_ssbo, bufferSetup_handles, floatsOf_length, hlen.1, hlen.2]
  refine ⟨hb.1, rfl, hb.2.1, rfl, hb.2.2.1, hb.2.2.2, ?_, ?_⟩
  · simp
  · simp [windowSetup, State.start]
    rfl

/-! ## C8, C10: the draw loop -/

/-- The window state after one frame. -/
theorem frame_window (d : Defines) (w : World α) (h : Handles) (p : Programs)
    (s : State α) :
    (frame d w h p s).shouldClose = (s.shouldClose || w.closeOnPoll s.polls) ∧
    (frame d w h p s).polls = s.polls + 1 := by
  simp [frame, glfwPollEvents, glNamedBufferSubData]

/-- The binding table after one frame. -/
theorem frame_ssbo (d : Defines) (w : World α) (h : Handles) (p : Programs)
    (s : State α) : (frame d w h p s).ssbo = s.ssbo := by
  simp [frame, glfwPollEvents, glNamedBufferSubData]

/-- The buffers after one frame: one `glNamedBufferSubData` on the cursor
buffer. -/
theorem frame_buffers (d : Defines) (w : World α) (h : Handles) (p : Programs)
    (s : State α) (b : Nat) :
    (frame d w h p s).buffers b =
      if b = h.cursor then
        (s.buffers b).map fun old =>
          old.subData 0 (2 * sizeof_GLfloat)
            (cursorTransform d (w.cursorOnPoll s.polls)).value_ptr
      else s.buffers b := by
  simp [frame, glfwPollEvents, glNamedBufferSubData]

/-- One frame adds one dispatch and one draw. -/
theorem frame_counts (d : Defines) (w : World α) (h : Handles) (p : Programs)
    (s : State α) :
    dispatches (frame d w h p s).trace = dispatches s.trace + 1 ∧
    draws (frame d w h p s).trace = draws s.trace + 1 := by
  rw [frame_trace]
  simp [dispatches, draws, Call.isDispatch, Call.isDraw, List.countP_cons]

omit [Field α] in
/-- A partial write keeps the size of the data store. -/
theorem subData_size (b : Buffer α) (offset size : Nat) (data : List α) :
    (b.subData offset size data).size = b.size := by
  unfold Buffer.subData
  split <;> rfl

omit [Field α] in
/-- The write of two floats at offset 0 of a store of two floats. -/
theorem subData_cursor (x y : α) (v : vec2 α) :
    (Buffer.mk 8 [x, y]).subData 0 (2 * sizeof_GLfloat) v.value_ptr = ⟨8, v.value_ptr⟩ := by
  simp [Buffer.subData, sizeof_GLfloat, vec2.value_ptr]

/-- The draw loop, started with the close flag clear, ends after the first
poll that brings a close request, having run one frame for every poll. -/
theorem drawLoop_closes (d : Defines) (w : World α) (h : Handles) (p : Programs)
    (k : Nat) : ∀ (fuel : Nat) (s : State α), s.shouldClose = false →
      (∀ j, j < k → w.closeOnPoll (s.polls + j) = false) →
      w.closeOnPoll (s.polls + k) = true → k + 2 ≤ fuel →
      drawLoop d w h p fuel s =
        some (emit Call.glfwWindowShouldClose (loopState d w h p (k + 1) s)) ∧
      dispatches (loopState d w h p (k + 1) s).trace = dispatches s.trace + (k + 1) ∧
      draws (loopState d w h p (k + 1) s).trace = draws s.trace + (k + 1) := by
  induction k with
  | zero =>
    intro fuel s hs _ hclose hfuel
    obtain ⟨fuel, rfl⟩ : ∃ f, fuel = f + 2 := ⟨fuel - 2, by omega⟩
    have hw := frame_window d w h p (emit Call.glfwWindowShouldClose s)
    have hc := frame_counts d w h p (emit Call.glfwWindowShouldClose s)
    simp only [emit_shouldClose, emit_polls, hs, Bool.false_or] at hw
    rw [Nat.add_zero] at hclose
    refine ⟨?_, ?_, ?_⟩
    · simp only [drawLoop, loopState, emit_shouldClose, hs, hw.1, hclose]
      simp
    · simp only [loopState, hc.1]
      simp [dispatches, Call.isDispatch]
    · simp only [loopState, hc.2]
      simp [draws, Call.isDraw]
  | succ k ih =>
    intro fuel s hs hbefore hclose hfuel
    obtain ⟨fuel, rfl⟩ : ∃ f, fuel = f + 1 := ⟨fuel - 1, by omega⟩
    have hw := frame_window d w h p (emit Call.glfwWindowShouldClose s)
    have hc := frame_counts d w h p (emit Call.glfwWindowShouldClose s)
    simp only [emit_shouldClose, emit_polls, hs, Bool.false_or] at hw
    have h0 : w.closeOnPoll s.polls = false := by
      simpa using hbefore 0 (by omega)
    rw [h0] at hw
    have hnext := ih fuel (frame d w h p (emit Call.glfwWindowShouldClose s)) hw.1
      (by
        intro j hj
        rw [hw.2, Nat.add_assoc, Nat.add_comm 1 j]
        exact hbefore (j + 1) (by omega))
      (by
        rw [hw.2, Nat.add_assoc, Nat.add_comm 1 k]
        exact hclose)
      (by omega)
    refine ⟨?_, ?_, ?_⟩
    · rw [drawLoop]
      simp only [emit_shouldClose, hs]
      rw [loopState]
      exact hnext.1
    · rw [loopState, hnext.2.1, hc.1]
      simp [dispatches, Call.isDispatch]
      omega
    · rw [loopState, hnext.2.2, hc.2]
      simp [draws, Call.isDraw]
      omega

omit [Field α] in
/-- Shutdown issues neither a dispatch nor a draw. -/
theorem shutdown_counts (p : Programs) (s : State α) :
    dispatches (shutdown p s).trace = dispatches s.trace ∧
    draws (shutdown p s).trace = draws s.trace := by
  simp [shutdown, dispatches, draws, Call.isDispatch, Call.isDraw]

/-- The state in which the draw loop is entered: the close flag is the one the
window was created with, nothing has been polled, dispatched or drawn. -/
theorem entry_state (d : Defines) (a : Arrays α) (w : World α) :
    (programSetup d (bufferSetup d a (windowSetup d w)).2).2.shouldClose =
      w.closeAtCreation ∧
    (programSetup d (bufferSetup d a (windowSetup d w)).2).2.polls = 0 ∧
    dispatches (programSetup d (bufferSetup d a (windowSetup d w)).2).2.trace = 0 ∧
    draws (programSetup d (bufferSetup d a (windowSetup d w)).2).2.trace = 0 := by
  refine ⟨?_, ?_, ?_, ?_⟩
  · rw [(programSetup_frame _ _).1, (bufferSetup_window _ _ _).1]
    simp [windowSetup, State.start]
  · rw [(programSetup_frame _ _).2.1, (bufferSetup_window _ _ _).2]
    simp [windowSetup, State.start]
  · rw [(programSetup_counts _ _).1, bufferSetup_trace, windowSetup_trace]
    simp [dispatches, Call.isDispatch, List.countP_cons]
  · rw [(programSetup_counts _ _).2, bufferSetup_trace, windowSetup_trace]
    simp [draws, Call.isDraw, List.countP_cons]

/-- The function `main` returns 0, after shutdown, when setup succeeds and the
draw loop ends. -/
theorem mainWith_returned (d : Defines) (L : Libc α) (w : World α) (fuel : Nat)
    (h : Handles) (p : Programs) (s0 s : State α)
    (hsetup : setup d L w = Except.ok (h, p, s0))
    (hloop : drawLoop d w h p fuel s0 = some s) :
    mainWith d L w fuel = some (Outcome.returned 0 (shutdown p s)) := by
  simp only [mainWith, hsetup, hloop]

/-- C8: in a run of main in which the three shader files load, the close flag
is clear at window creation and the poll of index k is the first to bring a
close request (so that the loop terminates), main, given fuel for the k + 2
tests of the loop condition, returns exit code 0 having issued k + 1
dispatches and k + 1 draws, at least one of each and as many of one as of the
other; and every iteration of the loop adds to the trace exactly these calls:
one `glDispatchCompute(100, 1, 1)` followed by one instanced draw of
NUM_PARTICLES instances. -/
theorem main_returns_zero (L : Libc α) (w : World α) (v f c : List GLchar)
    (k fuel : Nat)
    (hv : LoadShader w.files w.newSucceeds w.heap "shader.vert" = Except.ok v)
    (hf : LoadShader w.files w.newSucceeds w.heap "shader.frag" = Except.ok f)
    (hc : LoadShader w.files w.newSucceeds w.heap "cursor.glsl" = Except.ok c)
    (hclear : w.closeAtCreation = false)
    (hbefore : ∀ j, j < k → w.closeOnPoll j = false)
    (hclose : w.closeOnPoll k = true) (hfuel : k + 2 ≤ fuel) :
    (∃ s, main L w fuel = some (Outcome.returned 0 s) ∧
      dispatches s.trace = k + 1 ∧ draws s.trace = k + 1 ∧
      1 ≤ dispatches s.trace ∧ 1 ≤ draws s.trace ∧
      dispatches s.trace = draws s.trace) ∧
    ∀ (h : Handles) (p : Programs) (s : State α),
      (frame defines w h p s).trace = s.trace ++
        [Call.glClear, Call.glfwPollEvents, Call.glfwGetCursorPos,
         Call.glNamedBufferSubData h.cursor 0 8,
         Call.glUseProgram p.computeProgram,
         Call.glDispatchCompute 100 1 1,
         Call.glUseProgram p.shaderProgram,
         Call.glDrawArraysInstanced 0 1 NUM_PARTICLES,
         Call.glfwSwapBuffers] := by
  constructor
  · have he := entry_state defines (initParticles defines L w) w
    rw [hclear] at he
    have hloop := drawLoop_closes defines w
      (bufferSetup defines (initParticles defines L w) (windowSetup defines w)).1
      (programSetup defines
        (bufferSetup defines (initParticles defines L w) (windowSetup defines w)).2).1
      k fuel _ he.1
      (by
        intro j hj
        rw [he.2.1, Nat.zero_add]
        exact hbefore j hj)
      (by
        rw [he.2.1, Nat.zero_add]
        exact hclose)
      hfuel
    rw [he.2.2.1, he.2.2.2] at hloop
    refine ⟨_, mainWith_returned defines L w fuel _ _ _ _
      (setup_ok defines L w v f c hv hf hc) hloop.1, ?_, ?_, ?_, ?_, ?_⟩
    · rw [(shutdown_counts _ _).1]
      simp only [emit_trace, dispatches, List.countP_append] at hloop ⊢
      simp [hloop.2.1, Call.isDispatch]
    · rw [(shutdown_counts _ _).2]
      simp only [emit_trace, draws, List.countP_append] at hloop ⊢
      simp [hloop.2.2, Call.isDraw]
    · rw [(shutdown_counts _ _).1]
      simp only [emit_trace, dispatches, List.countP_append] at hloop ⊢
      simp [hloop.2.1, Call.isDispatch]
    · rw [(shutdown_counts _ _).2]
      simp only [emit_trace, draws, List.countP_append] at hloop ⊢
      simp [hloop.2.2, Call.isDraw]
    · rw [(shutdown_counts _ _).1, (shutdown_counts _ _).2]
      simp only [emit_trace, dispatches, draws, List.countP_append] at hloop ⊢
      simp [hloop.2.1, hloop.2.2, Call.isDispatch, Call.isDraw]
  · intro h p s
    rw [frame_trace]
    rfl

/-- A witness of C8: the example world whose first poll closes the window. -/
theorem main_returns_zero_witness :
    (LoadShader (World.closing : World ℚ).files (World.closing : World ℚ).newSucceeds
        (World.closing : World ℚ).heap "shader.vert" = Except.ok [118, 49, 0] ∧
      LoadShader (World.closing : World ℚ).files (World.closing : World ℚ).newSucceeds
        (World.closing : World ℚ).heap "shader.frag" = Except.ok [102, 0] ∧
      LoadShader (World.closing : World ℚ).files (World.closing : World ℚ).newSucceeds
        (World.closing : World ℚ).heap "cursor.glsl" = Except.ok [0] ∧
      (World.closing : World ℚ).closeAtCreation = false ∧
      (∀ j, j < 0 → (World.closing : World ℚ).closeOnPoll j = false) ∧
      (World.closing : World ℚ).closeOnPoll 0 = true ∧ 0 + 2 ≤ 2) ∧
    ((∃ s, main Libc.sample (World.closing : World ℚ) 2 = some (Outcome.returned 0 s) ∧
      dispatches s.trace = 0 + 1 ∧ draws s.trace = 0 + 1 ∧
      1 ≤ dispatches s.trace ∧ 1 ≤ draws s.trace ∧
      dispatches s.trace = draws s.trace) ∧
    ∀ (h : Handles) (p : Programs) (s : State ℚ),
      (frame defines World.closing h p s).trace = s.trace ++
        [Call.glClear, Call.glfwPollEvents, Call.glfwGetCursorPos,
         Call.glNamedBufferSubData h.cursor 0 8,
         Call.glUseProgram p.computeProgram,
         Call.glDispatchCompute 100 1 1,
         Call.glUseProgram p.shaderProgram,
         Call.glDrawArraysInstanced 0 1 NUM_PARTICLES,
         Call.glfwSwapBuffers]) :=
  ⟨⟨rfl, rfl, rfl, rfl, fun j hj => absurd hj (Nat.not_lt_zero j), rfl,
      Nat.le_refl 2⟩,
    main_returns_zero Libc.sample (World.closing : World ℚ) [118, 49, 0] [102, 0] [0] 0 2
      rfl rfl rfl rfl
      (fun j hj => absurd hj (Nat.not_lt_zero j)) rfl (Nat.le_refl 2)⟩

/-- The state after one more iteration, seen from the end of the loop. -/
theorem loopState_succ (d : Defines) (w : World α) (h : Handles) (p : Programs)
    (k : Nat) : ∀ s : State α, loopState d w h p (k + 1) s =
      frame d w h p (emit Call.glfwWindowShouldClose (loopState d w h p k s)) := by
  induction k with
  | zero => intro s; rfl
  | succ k ih =>
    intro s
    rw [loopState, ih, loopState]

/-- The poll counter after `k` iterations. -/
theorem loopState_polls (d : Defines) (w : World α) (h : Handles) (p : Programs)
    (s : State α) (k : Nat) : (loopState d w h p k s).polls = s.polls + k := by
  induction k with
  | zero => rfl
  | succ k ih =>
    rw [loopState_succ, (frame_window _ _ _ _ _).2, emit_polls, ih]
    omega

/-- The binding table never changes in the loop. -/
theorem loopState_ssbo (d : Defines) (w : World α) (h : Handles) (p : Programs)
    (s : State α) (k : Nat) : (loopState d w h p k s).ssbo = s.ssbo := by
  induction k with
  | zero => rfl
  | succ k ih => rw [loopState_succ, frame_ssbo, emit_ssbo, ih]

/-- A buffer other than the cursor buffer is never written in the loop. -/
theorem loopState_buffers (d : Defines) (w : World α) (h : Handles) (p : Programs)
    (s : State α) (b : Nat) (hb : b ≠ h.cursor) (k : Nat) :
    (loopState d w h p k s).buffers b = s.buffers b := by
  induction k with
  | zero => rfl
  | succ k ih => rw [loopState_succ, frame_buffers, if_neg hb, emit_buffers, ih]

/-- The cursor buffer, once two floats in 8 bytes, holds after every iteration
the transformed cursor of the latest poll. -/
theorem loopState_cursor (d : Defines) (w : World α) (h : Handles) (p : Programs)
    (s : State α) (x y : α) (hs : s.buffers h.cursor = some ⟨8, [x, y]⟩) (k : Nat) :
    (loopState d w h p (k + 1) s).buffers h.cursor =
      some ⟨8, (cursorTransform d (w.cursorOnPoll (s.polls + k))).value_ptr⟩ := by
  induction k with
  | zero =>
    rw [loopState_succ, frame_buffers, if_pos rfl]
    simp only [loopState, emit_buffers, emit_polls, hs, Option.map_some', Nat.add_zero]
    rw [subData_cursor]
  | succ k ih =>
    rw [loopState_succ, frame_buffers, if_pos rfl, emit_buffers, ih, emit_polls,
      loopState_polls]
    simp only [Option.map_some', vec2.value_ptr]
    rw [← Nat.add_assoc]
    exact congrArg some (subData_cursor _ _ _)

/-- C10: when the three shader files load, main enters the draw loop with
names h for its buffers and a state s0 in which slots 0 to 3 are bound to the
position, velocity, cursor and time-step buffers, the cursor buffer holds
(0, 0) in 8 bytes and the time-step buffer 1/10 in 4 bytes.  Every iteration
of the loop, from any state, issues one host write, `glNamedBufferSubData` of
8 bytes at offset 0 of the cursor buffer: it leaves the binding table, every
other buffer and the size of every buffer as they were, and sets the two
floats of the cursor buffer to the transformed cursor of this poll.  So in
the state reached after any number k of iterations the bindings and the
position, velocity and time-step buffers are those of s0, the time-step
buffer at slot 3 holding 1/10, and the cursor buffer keeps its 8 bytes. -/
theorem frame_writes_cursor_only (L : Libc α) (w : World α) (v f c : List GLchar)
    (hv : LoadShader w.files w.newSucceeds w.heap "shader.vert" = Except.ok v)
    (hf : LoadShader w.files w.newSucceeds w.heap "shader.frag" = Except.ok f)
    (hc : LoadShader w.files w.newSucceeds w.heap "cursor.glsl" = Except.ok c) :
    ∃ (h : Handles) (p : Programs) (s0 : State α),
      setup defines L w = Except.ok (h, p, s0) ∧
      s0.ssbo 0 = h.pos ∧ s0.ssbo 1 = h.vel ∧ s0.ssbo 2 = h.cursor ∧
      s0.ssbo 3 = h.timebuffer ∧
      s0.buffers h.cursor = some ⟨8, [0, 0]⟩ ∧
      s0.buffers h.timebuffer = some ⟨4, [1 / 10]⟩ ∧
      (∀ s : State α,
        (frame defines w h p s).trace.filter Call.isBufferWrite =
          s.trace.filter Call.isBufferWrite ++ [Call.glNamedBufferSubData h.cursor 0 8] ∧
        (frame defines w h p s).ssbo = s.ssbo ∧
        (∀ b, b ≠ h.cursor → (frame defines w h p s).buffers b = s.buffers b) ∧
        (∀ b, ((frame defines w h p s).buffers b).map Buffer.size =
          (s.buffers b).map Buffer.size) ∧
        (∀ x y, s.buffers h.cursor = some ⟨8, [x, y]⟩ →
          (frame defines w h p s).buffers h.cursor =
            some ⟨8, [(cursorTransform defines (w.cursorOnPoll s.polls)).x,
              (cursorTransform defines (w.cursorOnPoll s.polls)).y]⟩)) ∧
      ∀ k : Nat,
        (loopState defines w h p k s0).ssbo = s0.ssbo ∧
        (loopState defines w h p k s0).buffers h.pos = s0.buffers h.pos ∧
        (loopState defines w h p k s0).buffers h.vel = s0.buffers h.vel ∧
        (loopState defines w h p k s0).buffers h.timebuffer = some ⟨4, [1 / 10]⟩ ∧
        (loopState defines w h p k s0).slot 3 = some ⟨4, [1 / 10]⟩ ∧
        ((loopState defines w h p k s0).buffers h.cursor).map Buffer.size = some 8 ∧
        (loopState defines w h p (k + 1) s0).buffers h.cursor =
          some ⟨8, [(cursorTransform defines (w.cursorOnPoll k)).x,
            (cursorTransform defines (w.cursorOnPoll k)).y]⟩ := by
  have hbuf := bufferSetup_buffers defines (initParticles defines L w) (windowSetup defines w)
  have hssbo := bufferSetup_ssbo defines (initParticles defines L w) (windowSetup defines w)
  have hh := bufferSetup_handles defines (initParticles defines L w) (windowSetup defines w)
  have hpf := programSetup_frame defines
    (bufferSetup defines (initParticles defines L w) (windowSetup defines w)).2
  have hpolls := (entry_state defines (initParticles defines L w) w).2.1
  refine ⟨_, _, _, setup_ok defines L w v f c hv hf hc, ?_, ?_, ?_, ?_, ?_, ?_, ?_, ?_⟩
  · rw [hpf.2.2.2, hssbo, hh]; simp
  · rw [hpf.2.2.2, hssbo, hh]; simp
  · rw [hpf.2.2.2, hssbo, hh]; simp
  · rw [hpf.2.2.2, hssbo, hh]; simp
  · rw [hpf.2.2.1, hh]; exact hbuf.2.2.1
  · rw [hpf.2.2.1, hh]; exact hbuf.2.2.2
  · intro s
    refine ⟨?_, frame_ssbo _ _ _ _ _, ?_, ?_, ?_⟩
    · rw [frame_trace]
      simp [List.filter_cons, Call.isBufferWrite, sizeof_GLfloat]
    · intro b hb
      rw [frame_buffers, if_neg hb]
    · intro b
      rw [frame_buffers]
      split
      · cases s.buffers b with
        | none => rfl
        | some old => simp [subData_size]
      · rfl
    · intro x y hs
      rw [frame_buffers, if_pos rfl, hs, Option.map_some', subData_cursor]
      rfl
  · intro k
    have hcur : (programSetup defines
        (bufferSetup defines (initParticles defines L w) (windowSetup defines w)).2).2.buffers
        (bufferSetup defines (initParticles defines L w) (windowSetup defines w)).1.cursor
          = some ⟨8, [0, 0]⟩ := by
      rw [hpf.2.2.1, hh]; exact hbuf.2.2.1
    have htime : (programSetup defines
        (bufferSetup defines (initParticles defines L w) (windowSetup defines w)).2).2.buffers
        (bufferSetup defines (initParticles defines L w) (windowSetup defines w)).1.timebuffer
          = some ⟨4, [1 / 10]⟩ := by
      rw [hpf.2.2.1, hh]; exact hbuf.2.2.2
    refine ⟨loopState_ssbo _ _ _ _ _ _, ?_, ?_, ?_, ?_, ?_, ?_⟩
    · exact loopState_buffers _ _ _ _ _ _ (by rw [hh]; simp) k
    · exact loopState_buffers _ _ _ _ _ _ (by rw [hh]; simp) k
    · rw [loopState_buffers _ _ _ _ _ _ (by rw [hh]; simp) k]
      exact htime
    · rw [State.slot, loopState_ssbo, hpf.2.2.2, hssbo, if_pos rfl,
        loopState_buffers _ _ _ _ _ _ (by rw [hh]; simp) k, hpf.2.2.1]
      exact hbuf.2.2.2
    · cases k with
      | zero => rw [loopState, hcur]; rfl
      | succ k => rw [loopState_cursor _ _ _ _ _ _ _ hcur]; rfl
    · rw [loopState_cursor _ _ _ _ _ _ _ hcur, hpolls, Nat.zero_add]
      rfl

/-- A witness of C10: the example world in which the three files load. -/
theorem frame_writes_cursor_only_witness :
    (LoadShader (World.closing : World ℚ).files (World.closing : World ℚ).newSucceeds
        (World.closing : World ℚ).heap "shader.vert" = Except.ok [118, 49, 0] ∧
      LoadShader (World.closing : World ℚ).files (World.closing : World ℚ).newSucceeds
        (World.closing : World ℚ).heap "shader.frag" = Except.ok [102, 0] ∧
      LoadShader (World.closing : World ℚ).files (World.closing : World ℚ).newSucceeds
        (World.closing : World ℚ).heap "cursor.glsl" = Except.ok [0]) ∧
    ∃ (h : Handles) (p : Programs) (s0 : State ℚ),
      setup defines Libc.sample (World.closing : World ℚ) = Except.ok (h, p, s0) ∧
      s0.ssbo 0 = h.pos ∧ s0.ssbo 1 = h.vel ∧ s0.ssbo 2 = h.cursor ∧
      s0.ssbo 3 = h.timebuffer ∧
      s0.buffers h.cursor = some ⟨8, [0, 0]⟩ ∧
      s0.buffers h.timebuffer = some ⟨4, [1 / 10]⟩ ∧
      (∀ s : State ℚ,
        (frame defines World.closing h p s).trace.filter Call.isBufferWrite =
          s.trace.filter Call.isBufferWrite ++ [Call.glNamedBufferSubData h.cursor 0 8] ∧
        (frame defines World.closing h p s).ssbo = s.ssbo ∧
        (∀ b, b ≠ h.cursor → (frame defines World.closing h p s).buffers b = s.buffers b) ∧
        (∀ b, ((frame defines World.closing h p s).buffers b).map Buffer.size =
          (s.buffers b).map Buffer.size) ∧
        (∀ x y, s.buffers h.cursor = some ⟨8, [x, y]⟩ →
          (frame defines World.closing h p s).buffers h.cursor =
            some ⟨8, [(cursorTransform defines
                ((World.closing : World ℚ).cursorOnPoll s.polls)).x,
              (cursorTransform defines
                ((World.closing : World ℚ).cursorOnPoll s.polls)).y]⟩)) ∧
      ∀ k : Nat,
        (loopState defines World.closing h p k s0).ssbo = s0.ssbo ∧
        (loopState defines World.closing h p k s0).buffers h.pos = s0.buffers h.pos ∧
        (loopState defines World.closing h p k s0).buffers h.vel = s0.buffers h.vel ∧
        (loopState defines World.closing h p k s0).buffers h.timebuffer =
          some ⟨4, [1 / 10]⟩ ∧
        (loopState defines World.closing h p k s0).slot 3 = some ⟨4, [1 / 10]⟩ ∧
        ((loopState defines World.closing h p k s0).buffers h.cursor).map Buffer.size =
          some 8 ∧
        (loopState defines World.closing h p (k + 1) s0).buffers h.cursor =
          some ⟨8, [(cursorTransform defines ((World.closing : World ℚ).cursorOnPoll k)).x,
            (cursorTransform defines ((World.closing : World ℚ).cursorOnPoll k)).y]⟩ :=
  ⟨⟨rfl, rfl, rfl⟩,
    frame_writes_cursor_only Libc.sample (World.closing : World ℚ) [118, 49, 0] [102, 0] [0]
      rfl rfl rfl⟩

end GLCompute
